import Mathlib

set_option maxRecDepth 40000

/-!
Verification of the debugging session core of gotools_debug.py.

The development shallowly embeds the parts of the source the claims are
about:

* JSONClient (the RPC transport): the per-instance id counter
  (itertools.count starting at 0) and the body of JSONClient.call, which
  serializes a request, performs a SINGLE socket.recv(4096), decodes the
  received bytes with json.loads, checks response id against request id,
  checks the error field, and returns the result field.
* json.loads is modelled by a recursive-descent reader over List Char for
  the JSON fragment the protocol uses (objects, arrays, integers, strings
  without escape sequences, true, false, null, with whitespace skipping).
  Floats and string escapes never occur in the inputs considered here;
  omitting them only shrinks the accepted language and is irrelevant to
  every theorem below.
* DebuggingSession: field copies at construction, the lazily-constructed
  rpc property, and clear_breakpoint as the sequence of RPC calls it
  issues given the breakpoint list the debugger returned.
* GotoolsDebugCommand.launch and GotoolsDebugCommand.stop: the registry
  (window settings dict) is an association list, the filesystem check,
  port allocation, spawn pid and generated uuid key are explicit inputs,
  and the observable effects (spawned processes, registry writes, kill
  attempts) are returned as data.

Python None and JSON null both decode to None; the model therefore maps a
null or absent field to Option.none at the points where the source calls
dict.get.
-/

/-- JSON values as produced by json.loads on the wire protocol fragment in
use (no floats, no escaped characters in strings). -/
inductive J where
  | null
  | bool (b : Bool)
  | num (n : Int)
  | str (s : List Char)
  | arr (xs : List J)
  | obj (fields : List (List Char × J))

/-- Whitespace accepted between JSON tokens. -/
def isJsonWs (c : Char) : Bool :=
  match c with
  | ' ' | '\t' | '\n' | '\r' => true
  | _ => false

/-- Skip inter-token whitespace. -/
def skipWs : List Char → List Char
  | [] => []
  | c :: rest => if isJsonWs c then skipWs rest else c :: rest

/-- Scan a string body up to the closing quote (the protocol payloads
considered contain no escape sequences). Returns the body and the input
following the closing quote, or none when the input ends before a closing
quote is found, as json.loads fails on an unterminated string. -/
def parseStringBody : List Char → Option (List Char × List Char)
  | [] => none
  | c :: rest =>
    if c = '"' then some ([], rest)
    else
      match parseStringBody rest with
      | some (s, r) => some (c :: s, r)
      | none => none

/-- Decimal digit test. -/
def isDigitCh (c : Char) : Bool :=
  '0' ≤ c && c ≤ '9'

/-- Split a leading run of decimal digits from the input. -/
def takeDigits : List Char → List Char × List Char
  | [] => ([], [])
  | c :: rest =>
    if isDigitCh c then
      let (ds, r) := takeDigits rest
      (c :: ds, r)
    else ([], c :: rest)

/-- Numeric value of a digit run. -/
def digitsToNat (ds : List Char) : Nat :=
  ds.foldl (fun acc c => acc * 10 + (c.toNat - 48)) 0

mutual

/-- Read one JSON value; fuel bounds the recursion depth and one unit is
consumed only after at least one input character has been consumed, so any
fuel exceeding the input length is enough. Returns the value and the rest
of the input. -/
def jparse : Nat → List Char → Option (J × List Char)
  | 0, _ => none
  | fuel + 1, input =>
    match skipWs input with
    | 'n' :: 'u' :: 'l' :: 'l' :: rest => some (.null, rest)
    | 't' :: 'r' :: 'u' :: 'e' :: rest => some (.bool true, rest)
    | 'f' :: 'a' :: 'l' :: 's' :: 'e' :: rest => some (.bool false, rest)
    | '"' :: rest =>
      match parseStringBody rest with
      | some (s, r) => some (.str s, r)
      | none => none
    | '[' :: rest =>
      match skipWs rest with
      | ']' :: r => some (.arr [], r)
      | r =>
        match jparseArrItems fuel r with
        | some (xs, r2) => some (.arr xs, r2)
        | none => none
    | '{' :: rest =>
      match skipWs rest with
      | '}' :: r => some (.obj [], r)
      | r =>
        match jparseObjItems fuel r with
        | some (fs, r2) => some (.obj fs, r2)
        | none => none
    | '-' :: rest =>
      match takeDigits rest with
      | ([], _) => none
      | (ds, r) => some (.num (-(digitsToNat ds : Int)), r)
    | c :: rest =>
      if isDigitCh c then
        match takeDigits (c :: rest) with
        | (ds, r) => some (.num (digitsToNat ds), r)
      else none
    | [] => none

/-- Read the comma-separated items of a nonempty array, up to and past the
closing bracket. -/
def jparseArrItems : Nat → List Char → Option (List J × List Char)
  | 0, _ => none
  | fuel + 1, input =>
    match jparse fuel input with
    | none => none
    | some (v, rest) =>
      match skipWs rest with
      | ',' :: r =>
        match jparseArrItems fuel r with
        | some (xs, r2) => some (v :: xs, r2)
        | none => none
      | ']' :: r => some ([v], r)
      | _ => none

/-- Read the comma-separated key-value pairs of a nonempty object, up to
and past the closing brace. -/
def jparseObjItems : Nat → List Char → Option (List (List Char × J) × List Char)
  | 0, _ => none
  | fuel + 1, input =>
    match skipWs input with
    | '"' :: rest =>
      match parseStringBody rest with
      | none => none
      | some (k, r1) =>
        match skipWs r1 with
        | ':' :: r2 =>
          match jparse fuel r2 with
          | none => none
          | some (v, r3) =>
            match skipWs r3 with
            | ',' :: r4 =>
              match jparseObjItems fuel r4 with
              | some (fs, r5) => some ((k, v) :: fs, r5)
              | none => none
            | '}' :: r4 => some ([(k, v)], r4)
            | _ => none
        | _ => none
    | _ => none

end

/-- Model of json.loads: read one value and require only whitespace after
it; none models a raised json.JSONDecodeError. -/
def loads (input : List Char) : Option J :=
  match jparse (input.length + 1) input with
  | some (v, rest) => if skipWs rest = [] then some v else none
  | none => none

/-- Lookup of a key in a decoded JSON object, as a Python dict built by
json.loads: with duplicate keys the last occurrence wins. -/
def dictGet (fields : List (List Char × J)) (key : List Char) : Option J :=
  ((fields.filter (fun kv => kv.1 == key)).map (fun kv => kv.2)).getLast?

/-- Python-level dict.get on a decoded response object: an absent field and
a JSON null field both yield Python None, modelled as Option.none. -/
def pyGet (fields : List (List Char × J)) (key : List Char) : Option J :=
  match dictGet fields key with
  | some J.null => none
  | some v => some v
  | none => none

/-- Python equality between a decoded value (or None) and an int, as used by
the source at response.get of id versus request.get of id: a JSON integer
compares by value, a JSON boolean compares as 0 or 1 (bool is an int
subclass in Python), anything else is unequal to an int. -/
def pyEqInt (v : Option J) (n : Nat) : Bool :=
  match v with
  | some (J.num m) => m == (n : Int)
  | some (J.bool b) => (if b then (1 : Int) else 0) == (n : Int)
  | _ => false

/-- Key id of the wire protocol. -/
def kId : List Char := ['i', 'd']

/-- Key result of the wire protocol. -/
def kResult : List Char := ['r', 'e', 's', 'u', 'l', 't']

/-- Key error of the wire protocol. -/
def kError : List Char := ['e', 'r', 'r', 'o', 'r']

/-- State of a JSONClient instance: the constructor opens the TCP
connection and sets self.id_counter to itertools.count, whose first next
yields 0. The socket itself appears in the model as the incoming byte
stream passed to call. -/
structure JSONClient where
  id_counter : Nat
deriving Repr, DecidableEq

/-- A freshly constructed transport: the itertools.count counter will yield
0 first. -/
def JSONClient.init : JSONClient :=
  { id_counter := 0 }

/-- The request dict built by call: id from the counter, the params list,
and the method name; it is serialized with json.dumps and written to the
socket with sendall. -/
structure Request where
  id : Nat
  params : List J
  method : List Char

/-- The distinct raise sites of JSONClient.call, in source order: a
json.loads failure, an AttributeError from calling get on a decoded
non-dict value, the id-mismatch raise at line 44 (carrying the request id,
the received id and the received error field, as its format string does),
and the server-error raise at line 49 (carrying the error payload
verbatim). -/
inductive CallError where
  | jsonDecodeError
  | attrError
  | idMismatch (expected : Nat) (got : Option J) (err : Option J)
  | remoteError (payload : J)

/-- Everything observable about one invocation of JSONClient.call: the
request it sent, the client state afterwards, and the returned Python
value (none models Python None) or the raised exception. -/
structure CallOutput where
  request : Request
  client : JSONClient
  result : Except CallError (Option J)

/-- The response-processing tail of JSONClient.call, from the decode of
the received bytes on, in source order: json.loads of the bytes the single
recv returned (raising on failure), the id check at line 43 (raising the
mismatch exception that carries the request id, the received id and the
received error field), the error check at line 48 (raising the error
payload verbatim), and finally returning the result field. -/
def callResult (reqId : Nat) (raw : List Char) : Except CallError (Option J) :=
  match loads raw with
  | none => .error .jsonDecodeError
  | some (J.obj fields) =>
    if pyEqInt (pyGet fields kId) reqId then
      match pyGet fields kError with
      | some e => .error (.remoteError e)
      | none => .ok (pyGet fields kResult)
    else
      .error (.idMismatch reqId (pyGet fields kId) (pyGet fields kError))
  | some _ => .error .attrError

/-- JSONClient.call: builds the request with the next counter value, sends
it, then performs exactly ONE socket.recv(4096) — modelled as taking at
most 4096 bytes of the incoming stream, the most favourable behaviour a
single recv can have — and processes the received bytes with callResult. -/
def JSONClient.call (c : JSONClient) (method : List Char) (params : List J)
    (incoming : List Char) : CallOutput :=
  { request := { id := c.id_counter, params := params, method := method },
    client := { id_counter := c.id_counter + 1 },
    result := callResult c.id_counter (incoming.take 4096) }

/-- One exchange driven through call: the method, the params, and the bytes
the server sends back on the socket. -/
structure Exchange where
  method : List Char
  params : List J
  incoming : List Char

/-- Run a sequence of calls on one transport, threading the client state,
and collect each invocation output. -/
def runCalls : JSONClient → List Exchange → List CallOutput
  | _, [] => []
  | c, e :: rest =>
    let out := c.call e.method e.params e.incoming
    out :: runCalls out.client rest

/-- A breakpoint entry as decoded from a ListBreakpoints response: the
debugger-assigned id and the file and line fields the source reads. -/
structure Breakpoint where
  id : Int
  file : String
  line : Int
deriving Repr, DecidableEq

/-- One RPC issued by a DebuggingSession operation, identified by method
and the payload the source passes. -/
inductive RpcCall where
  | createBreakpoint (file : String) (line : Int)
  | listBreakpoints
  | clearBreakpoint (id : Int)
  | command (name : String)
deriving Repr, DecidableEq

/-- Test of the loop condition in clear_breakpoint: bp at key file equals
filename and bp at key line equals line. -/
def bpMatches (filename : String) (line : Int) (bp : Breakpoint) : Bool :=
  bp.file == filename && bp.line == line

/-- Recognizer for ClearBreakpoint calls. -/
def isClearCall : RpcCall → Bool
  | .clearBreakpoint _ => true
  | _ => false

/-- DebuggingSession.clear_breakpoint, given the breakpoint list the
debugger returned to the initial get_breakpoints, as the sequence of RPC
calls it issues: first ListBreakpoints (via get_breakpoints); then the
for-loop with break leaves bp at the first matching entry; with no match
it logs and returns; with a match it issues ClearBreakpoint with the id of
that entry and then get_breakpoints once more for the log line. -/
def clear_breakpoint (bps : List Breakpoint) (filename : String) (line : Int) :
    List RpcCall :=
  RpcCall.listBreakpoints ::
    (match bps.find? (bpMatches filename line) with
     | none => []
     | some bp => [RpcCall.clearBreakpoint bp.id, RpcCall.listBreakpoints])

/-- A session record as stored in the window settings dict under
gotools.debugger.sessions. -/
structure SessionRecord where
  program : String
  pid : Nat
  host : String
  port : Nat
  addr : String
  desc : String
deriving Repr, DecidableEq

/-- The registry: the window settings dict keyed by session key, as an
association list with at most one entry per key. -/
abbrev Registry := List (String × SessionRecord)

/-- Dict assignment sessions at key becomes v: overwrite an existing entry
or append a new one. -/
def Registry.setKey (reg : Registry) (key : String) (v : SessionRecord) : Registry :=
  if (List.any reg (fun kv => kv.1 == key)) then
    List.map (fun kv => if kv.1 == key then (key, v) else kv) reg
  else
    List.append reg [(key, v)]

/-- Dict membership and indexing: the record stored under key, if any. -/
def Registry.getKey (reg : Registry) (key : String) : Option SessionRecord :=
  List.lookup key reg

/-- Dict pop of key: remove the entry stored under key. -/
def Registry.popKey (reg : Registry) (key : String) : Registry :=
  List.eraseP (fun kv => kv.1 == key) reg

/-- A DebuggingSession object: the fields its constructor copies out of the
registry record, and the _rpc attribute, initialized to None and filled by
the rpc property on first use. -/
structure DebuggingSession where
  _rpc : Option JSONClient
  session_key : String
  pid : Nat
  host : String
  port : Nat
  addr : String
deriving Repr, DecidableEq

/-- The DebuggingSession constructor: _rpc starts as None and the record
fields are copied by value. -/
def DebuggingSession.fromRecord (key : String) (s : SessionRecord) : DebuggingSession :=
  { _rpc := none, session_key := key, pid := s.pid, host := s.host,
    port := s.port, addr := s.addr }

/-- The rpc property: if _rpc is set (a JSONClient object is always truthy
in Python) it is returned unchanged; otherwise a JSONClient is constructed
— opening the TCP connection — stored in _rpc, and returned. The Bool
records whether this access constructed a new transport. -/
def DebuggingSession.rpc (s : DebuggingSession) : JSONClient × DebuggingSession × Bool :=
  match s._rpc with
  | some c => (c, s, false)
  | none =>
    let c := JSONClient.init
    (c, { s with _rpc := some c }, true)

/-- Perform n successive accesses of the rpc property on a session object,
returning the clients handed back in order, the final object state, and
how many accesses constructed a new transport. -/
def rpcAccesses (s : DebuggingSession) : Nat → List JSONClient × DebuggingSession × Nat
  | 0 => ([], s, 0)
  | n + 1 =>
    match s.rpc with
    | (c, s1, created) =>
      match rpcAccesses s1 n with
      | (cs, s2, k) => (c :: cs, s2, (if created then 1 else 0) + k)

/-- A child process spawned through ToolRunner.run_nonblock: the command,
its argument vector, and the pid the spawn returned. -/
structure SpawnedProc where
  cmd : String
  args : List String
  pid : Nat
deriving Repr, DecidableEq

/-- How launch ended: the early return after the isfile check fails (the
InvalidProgram case: it logs that the built file does not exist and
returns before any other effect), or a completed launch under the given
key. -/
inductive LaunchOutcome where
  | invalidProgram
  | launched (key : String)
deriving Repr, DecidableEq

/-- Everything observable about one launch invocation: the registry
afterwards, the processes spawned, the ActiveSession pointer afterwards,
and the outcome. -/
structure LaunchResult where
  registry : Registry
  spawned : List SpawnedProc
  active : Option DebuggingSession
  outcome : LaunchOutcome

/-- GotoolsDebugCommand.attach: look the key up in the registry; if absent,
log and leave the ActiveSession pointer unchanged; otherwise construct a
DebuggingSession around the record and make it the ActiveSession. -/
def attach (reg : Registry) (active : Option DebuggingSession) (key : String) :
    Option DebuggingSession :=
  match Registry.getKey reg key with
  | none => active
  | some s => some (DebuggingSession.fromRecord key s)

/-- GotoolsDebugCommand.launch. The environment supplied by the OS and
libraries is passed explicitly: isfile is the os.path.isfile check on
program, genKey the uuid generated when the key argument is falsy (None or
the empty string), allocPort the ephemeral port read back from the bound
socket, and spawnPid the pid of the dlv child. After the isfile guard it
builds addr, spawns dlv with the headless and listen flags and the exec
subcommand on program, writes the record into the registry under key, and
attaches to it. -/
def launch (isfile : Bool) (genKey : String) (allocPort : Nat) (spawnPid : Nat)
    (reg : Registry) (active : Option DebuggingSession)
    (program : String) (key : Option String) (desc : String) : LaunchResult :=
  if !isfile then
    { registry := reg, spawned := [], active := active, outcome := .invalidProgram }
  else
    let key : String :=
      match key with
      | none => genKey
      | some k => if k == "" then genKey else k
    let host := "localhost"
    let port := allocPort
    let addr := host ++ ":" ++ toString port
    let proc : SpawnedProc :=
      { cmd := "dlv",
        args := ["--headless=true", "--listen=" ++ addr, "exec", program],
        pid := spawnPid }
    let record : SessionRecord :=
      { program := program, pid := spawnPid, host := host, port := port,
        addr := addr, desc := desc }
    let reg2 := Registry.setKey reg key record
    { registry := reg2, spawned := [proc],
      active := attach reg2 active key, outcome := .launched key }

/-- The observable effects of stop, in the order the source performs them:
the registry write that drops the record, the os.kill attempt on the pid,
the os.waitpid reap, and the warning log emitted by the except clause when
kill or reap raises. -/
inductive StopEvent where
  | removeFromRegistry (key : String)
  | killAttempt (pid : Nat)
  | reap (pid : Nat)
  | warnLogged
deriving Repr, DecidableEq

/-- Result of a stop invocation: the registry afterwards and the events in
order. The source wraps kill and reap in try/except whose handler only
logs, so stop never raises. -/
structure StopResult where
  registry : Registry
  events : List StopEvent
deriving Repr, DecidableEq

/-- GotoolsDebugCommand.stop: with the key absent from the registry it logs
and returns; otherwise it pops the record and writes the registry back
BEFORE trying os.kill with SIGKILL and the non-blocking os.waitpid, and an
exception from either (killRaises, reapRaises — e.g. the pid already
exited) is caught and logged as a warning. -/
def stop (killRaises reapRaises : Bool) (reg : Registry) (key : String) : StopResult :=
  match Registry.getKey reg key with
  | none => { registry := reg, events := [] }
  | some session =>
    let reg2 := Registry.popKey reg key
    { registry := reg2,
      events := StopEvent.removeFromRegistry key :: StopEvent.killAttempt session.pid ::
        (if killRaises then [StopEvent.warnLogged]
         else StopEvent.reap session.pid ::
           (if reapRaises then [StopEvent.warnLogged] else [])) }

/-- Opening bytes of the oversized response used against C1, through the
opening quote of its result string. -/
def respHead : List Char :=
  ['{', '"', 'i', 'd', '"', ':', '0', ',',
   '"', 'r', 'e', 's', 'u', 'l', 't', '"', ':', '"']

/-- Closing bytes of the oversized response: the closing quote of the
result string and the null error field. -/
def respTail : List Char :=
  ['"', ',', '"', 'e', 'r', 'r', 'o', 'r', '"', ':', 'n', 'u', 'l', 'l', '}']

/-- A well-formed 5033-byte response to request id 0 whose result is a
5000-character string: longer than the single recv of 4096 bytes performed
by call. -/
def bigResponse : List Char :=
  respHead ++ (List.replicate 5000 'a' ++ respTail)

/-- The decoded value of bigResponse. -/
def bigResponseValue : J :=
  J.obj [(kId, J.num 0), (kResult, J.str (List.replicate 5000 'a')), (kError, J.null)]


/-- A small well-formed response carrying id 1, used against a request with
id 0. -/
def mismatchResp : List Char :=
  ['{', '"', 'i', 'd', '"', ':', '1', ',',
   '"', 'r', 'e', 's', 'u', 'l', 't', '"', ':', 'n', 'u', 'l', 'l', ',',
   '"', 'e', 'r', 'r', 'o', 'r', '"', ':', 'n', 'u', 'l', 'l', '}']

/-- The decoded fields of mismatchResp. -/
def mismatchFields : List (List Char × J) :=
  [(kId, J.num 1), (kResult, J.null), (kError, J.null)]

/-- A response to id 0 whose error field is the string boom. -/
def errorResp : List Char :=
  ['{', '"', 'i', 'd', '"', ':', '0', ',',
   '"', 'r', 'e', 's', 'u', 'l', 't', '"', ':', 'n', 'u', 'l', 'l', ',',
   '"', 'e', 'r', 'r', 'o', 'r', '"', ':', '"', 'b', 'o', 'o', 'm', '"', '}']

/-- The decoded fields of errorResp. -/
def errorFields : List (List Char × J) :=
  [(kId, J.num 0), (kResult, J.null), (kError, J.str ['b', 'o', 'o', 'm'])]

/-- A response to id 0 with result 7 and a null error field. -/
def okResp : List Char :=
  ['{', '"', 'i', 'd', '"', ':', '0', ',',
   '"', 'r', 'e', 's', 'u', 'l', 't', '"', ':', '7', ',',
   '"', 'e', 'r', 'r', 'o', 'r', '"', ':', 'n', 'u', 'l', 'l', '}']

/-- The decoded fields of okResp. -/
def okFields : List (List Char × J) :=
  [(kId, J.num 0), (kResult, J.num 7), (kError, J.null)]

/-- A response whose id 5 mismatches request id 0 AND whose error field is
non-null: used to show the id check fires first. -/
def mismErrResp : List Char :=
  ['{', '"', 'i', 'd', '"', ':', '5', ',',
   '"', 'r', 'e', 's', 'u', 'l', 't', '"', ':', 'n', 'u', 'l', 'l', ',',
   '"', 'e', 'r', 'r', 'o', 'r', '"', ':', '"', 'x', '"', '}']

/-- The decoded fields of mismErrResp. -/
def mismErrFields : List (List Char × J) :=
  [(kId, J.num 5), (kResult, J.null), (kError, J.str ['x'])]

/-- A concrete session record for witnesses. -/
def demoRecord : SessionRecord :=
  { program := "/tmp/prog", pid := 42, host := "localhost", port := 7777,
    addr := "localhost:7777", desc := "TestFoo" }

/-- A registry holding demoRecord under key k. -/
def demoReg : Registry := [("k", demoRecord)]

/-- A breakpoint list with two entries at the same location, ids 7 then 9,
after a non-matching entry. -/
def demoBps : List Breakpoint :=
  [{ id := 3, file := "/tmp/b.go", line := 4 },
   { id := 7, file := "/tmp/a.go", line := 10 },
   { id := 9, file := "/tmp/a.go", line := 10 }]

theorem psb_replicate (n : Nat) : parseStringBody (List.replicate n 'a') = none := by
  induction n with
  | zero => rfl
  | succ n ih => simp [List.replicate_succ, parseStringBody, ih]

theorem psb_closed (n : Nat) (r : List Char) :
    parseStringBody (List.replicate n 'a' ++ '"' :: r) = some (List.replicate n 'a', r) := by
  induction n with
  | zero => simp [parseStringBody]
  | succ n ih => simp [List.replicate_succ, parseStringBody, ih]

theorem find?_first_match {α : Type} (p : α → Bool) (l1 : List α) (b : α) (l2 : List α)
    (h1 : ∀ x ∈ l1, p x = false) (hb : p b = true) :
    List.find? p (l1 ++ b :: l2) = some b := by
  induction l1 with
  | nil => simp [List.find?_cons_of_pos, hb]
  | cons a l1 ih =>
    have ha : p a = false := h1 a (List.mem_cons_self a l1)
    rw [List.cons_append, List.find?_cons_of_neg _ (by simp [ha])]
    exact ih fun x hx => h1 x (List.mem_cons_of_mem a hx)

theorem runCalls_ids (c : JSONClient) (es : List Exchange) :
    (runCalls c es).map (fun o => o.request.id) = List.range' c.id_counter es.length := by
  induction es generalizing c with
  | nil => rfl
  | cons e es ih =>
    simp only [runCalls, List.map_cons, List.length_cons, List.range'_succ]
    exact congrArg (List.cons c.id_counter) (ih ⟨c.id_counter + 1⟩)

theorem rpcAccesses_connected (s : DebuggingSession) (c : JSONClient) (h : s._rpc = some c) :
    ∀ n, rpcAccesses s n = (List.replicate n c, s, 0) := by
  intro n
  induction n with
  | zero => rfl
  | succ n ih => simp [rpcAccesses, DebuggingSession.rpc, h, ih, List.replicate_succ]

/-- C2: the request ids used by one transport are exactly 0, 1, 2, ... in
order: on a freshly constructed JSONClient (whose itertools.count counter
starts at 0, so any two distinct transports independently start there) a
sequence of n calls sends ids 0 through n-1, the k-th call (counting from
1) sending id k-1. -/
theorem transport_ids_zero_one_two (es : List Exchange) :
    (runCalls JSONClient.init es).map (fun o => o.request.id) = List.range es.length := by
  rw [runCalls_ids, List.range_eq_range']
  rfl

/-- C5: launch against a program path for which os.path.isfile is false
logs and returns at once: no process is spawned (so the check precedes any
spawn), the registry is unchanged, the active session is unchanged, and
the outcome is the InvalidProgram failure. -/
theorem launch_missing_program_is_noop (genKey : String) (allocPort spawnPid : Nat)
    (reg : Registry) (active : Option DebuggingSession) (program : String)
    (key : Option String) (desc : String) :
    launch false genKey allocPort spawnPid reg active program key desc
      = { registry := reg, spawned := [], active := active,
          outcome := LaunchOutcome.invalidProgram } := rfl

/-- C6: clear_breakpoint first issues ListBreakpoints; when no returned
entry matches the file and line it issues nothing further and returns
without error; when some entry matches it issues exactly one
ClearBreakpoint, carrying the id of the first matching entry in
server-returned order. -/
theorem clear_breakpoint_calls_spec (bps : List Breakpoint) (filename : String) (line : Int) :
    (clear_breakpoint bps filename line).head? = some RpcCall.listBreakpoints
    ∧ ((∀ bp ∈ bps, bpMatches filename line bp = false) →
        clear_breakpoint bps filename line = [RpcCall.listBreakpoints])
    ∧ (∀ l1 bp l2, bps = l1 ++ bp :: l2 → bpMatches filename line bp = true →
        (∀ x ∈ l1, bpMatches filename line x = false) →
        (clear_breakpoint bps filename line).filter isClearCall
          = [RpcCall.clearBreakpoint bp.id]) := by
  refine ⟨rfl, ?_, ?_⟩
  · intro h
    have hf : bps.find? (bpMatches filename line) = none :=
      List.find?_eq_none.mpr fun x hx => by simp [h x hx]
    simp [clear_breakpoint, hf]
  · intro l1 bp l2 hbps hbp hl1
    subst hbps
    have hf : (l1 ++ bp :: l2).find? (bpMatches filename line) = some bp :=
      find?_first_match _ l1 bp l2 hl1 hbp
    simp [clear_breakpoint, hf, isClearCall, List.filter]

theorem clear_breakpoint_calls_spec_witness :
    bpMatches "/tmp/a.go" 10 { id := 7, file := "/tmp/a.go", line := 10 } = true
    ∧ (clear_breakpoint demoBps "/tmp/a.go" 10).filter isClearCall
        = [RpcCall.clearBreakpoint 7] :=
  ⟨rfl,
    (clear_breakpoint_calls_spec demoBps "/tmp/a.go" 10).2.2
      [{ id := 3, file := "/tmp/b.go", line := 4 }]
      { id := 7, file := "/tmp/a.go", line := 10 }
      [{ id := 9, file := "/tmp/a.go", line := 10 }]
      rfl rfl (by decide)⟩

/-- C7: when the key is present, stop writes the registry with the record
removed as its FIRST effect, before the os.kill attempt, and the registry
result does not depend on whether kill or reap raises (those failures only
produce a warning log; stop raises nothing). -/
theorem stop_removes_entry_before_kill (killRaises reapRaises : Bool) (reg : Registry)
    (key : String) (s : SessionRecord) (h : Registry.getKey reg key = some s) :
    (stop killRaises reapRaises reg key).registry = Registry.popKey reg key
    ∧ ∃ rest, (stop killRaises reapRaises reg key).events
        = StopEvent.removeFromRegistry key :: StopEvent.killAttempt s.pid :: rest := by
  constructor
  · simp [stop, h]
  · refine ⟨if killRaises then [StopEvent.warnLogged]
      else StopEvent.reap s.pid :: (if reapRaises then [StopEvent.warnLogged] else []), ?_⟩
    simp [stop, h]

theorem stop_removes_entry_before_kill_witness :
    Registry.getKey demoReg "k" = some demoRecord
    ∧ (stop true false demoReg "k").registry = Registry.popKey demoReg "k"
    ∧ (stop true false demoReg "k").events
        = [StopEvent.removeFromRegistry "k", StopEvent.killAttempt 42, StopEvent.warnLogged] :=
  ⟨rfl, (stop_removes_entry_before_kill true false demoReg "k" demoRecord rfl).1, rfl⟩

/-- C8: stop on a key absent from the registry logs and returns: the
registry is unchanged and no kill (nor any other effect) happens. -/
theorem stop_unknown_key_is_noop (killRaises reapRaises : Bool) (reg : Registry) (key : String)
    (h : Registry.getKey reg key = none) :
    stop killRaises reapRaises reg key = { registry := reg, events := [] } := by
  simp [stop, h]

theorem stop_unknown_key_is_noop_witness :
    Registry.getKey demoReg "other" = none
    ∧ stop false false demoReg "other" = { registry := demoReg, events := [] } :=
  ⟨rfl, stop_unknown_key_is_noop false false demoReg "other" rfl⟩

/-- C9: a DebuggingSession owns at most one transport: _rpc is None at
construction, the first rpc access constructs the JSONClient (opening the
connection), and over any n accesses exactly min n 1 constructions happen,
every access returning the one stored client. -/
theorem session_lazy_single_transport (key : String) (r : SessionRecord) (n : Nat) :
    (DebuggingSession.fromRecord key r)._rpc = none
    ∧ (rpcAccesses (DebuggingSession.fromRecord key r) n).2.2 = min n 1
    ∧ (rpcAccesses (DebuggingSession.fromRecord key r) n).1
        = List.replicate n JSONClient.init := by
  match n with
  | 0 => exact ⟨rfl, rfl, rfl⟩
  | m + 1 =>
    have hconn := rpcAccesses_connected
      { _rpc := some JSONClient.init, session_key := key, pid := r.pid, host := r.host,
        port := r.port, addr := r.addr } JSONClient.init rfl m
    have h1 : rpcAccesses (DebuggingSession.fromRecord key r) (m + 1)
        = (match rpcAccesses
              { _rpc := some JSONClient.init, session_key := key, pid := r.pid,
                host := r.host, port := r.port, addr := r.addr } m with
           | (cs, s2, k) => (JSONClient.init :: cs, s2, 1 + k)) := rfl
    rw [hconn] at h1
    refine ⟨rfl, ?_, ?_⟩
    · rw [h1]
      simp
    · rw [h1]
      simp [List.replicate_succ]

theorem callResult_mismatch (reqId : Nat) (raw : List Char) (fields : List (List Char × J))
    (hresp : loads raw = some (J.obj fields))
    (hmis : pyEqInt (pyGet fields kId) reqId = false) :
    callResult reqId raw
      = Except.error (CallError.idMismatch reqId (pyGet fields kId) (pyGet fields kError)) := by
  unfold callResult
  rw [hresp]
  simp [hmis]

theorem callResult_matched (reqId : Nat) (raw : List Char) (fields : List (List Char × J))
    (hresp : loads raw = some (J.obj fields))
    (hid : pyEqInt (pyGet fields kId) reqId = true) :
    callResult reqId raw
      = match pyGet fields kError with
        | some e => Except.error (CallError.remoteError e)
        | none => Except.ok (pyGet fields kResult) := by
  unfold callResult
  rw [hresp]
  cases hE : pyGet fields kError <;> simp [hid, hE]

/-- C3: when the decoded response id does not Python-equal the id the call
sent, call raises the mismatch exception (carrying request id, received id
and received error field) rather than treating the response as an answer. -/
theorem call_raises_on_id_mismatch (c : JSONClient) (method : List Char) (params : List J)
    (incoming : List Char) (fields : List (List Char × J))
    (hresp : loads (incoming.take 4096) = some (J.obj fields))
    (hmis : pyEqInt (pyGet fields kId) c.id_counter = false) :
    (c.call method params incoming).result
      = Except.error (CallError.idMismatch c.id_counter (pyGet fields kId)
          (pyGet fields kError)) := by
  show callResult c.id_counter (incoming.take 4096) = _
  exact callResult_mismatch _ _ _ hresp hmis

theorem call_raises_on_id_mismatch_witness :
    loads (mismatchResp.take 4096) = some (J.obj mismatchFields)
    ∧ pyEqInt (pyGet mismatchFields kId) JSONClient.init.id_counter = false
    ∧ (JSONClient.init.call [] [] mismatchResp).result
        = Except.error (CallError.idMismatch 0 (some (J.num 1)) none) :=
  ⟨rfl, rfl,
    call_raises_on_id_mismatch JSONClient.init [] [] mismatchResp mismatchFields rfl rfl⟩

/-- C4: on a response whose id matches, call raises the server error
payload verbatim exactly when the error field is non-null, and otherwise
returns the result field. -/
theorem call_matched_id_error_iff (c : JSONClient) (method : List Char) (params : List J)
    (incoming : List Char) (fields : List (List Char × J))
    (hresp : loads (incoming.take 4096) = some (J.obj fields))
    (hid : pyEqInt (pyGet fields kId) c.id_counter = true) :
    (c.call method params incoming).result
      = match pyGet fields kError with
        | some e => Except.error (CallError.remoteError e)
        | none => Except.ok (pyGet fields kResult) := by
  show callResult c.id_counter (incoming.take 4096) = _
  exact callResult_matched _ _ _ hresp hid

theorem call_matched_id_error_iff_witness :
    loads (errorResp.take 4096) = some (J.obj errorFields)
    ∧ pyEqInt (pyGet errorFields kId) JSONClient.init.id_counter = true
    ∧ (JSONClient.init.call [] [] errorResp).result
        = Except.error (CallError.remoteError (J.str ['b', 'o', 'o', 'm']))
    ∧ (JSONClient.init.call [] [] okResp).result = Except.ok (some (J.num 7)) :=
  ⟨rfl, rfl,
    call_matched_id_error_iff JSONClient.init [] [] errorResp errorFields rfl rfl,
    call_matched_id_error_iff JSONClient.init [] [] okResp okFields rfl rfl⟩

/-- C10: the id check at line 43 runs before the error check at line 48:
a mismatched id raises the mismatch exception even when the error field is
non-null, and the server-error raise is reachable only on a matching id. -/
theorem call_id_check_precedes_error_check (c : JSONClient) (method : List Char)
    (params : List J) (incoming : List Char) (fields : List (List Char × J))
    (hresp : loads (incoming.take 4096) = some (J.obj fields)) :
    (pyEqInt (pyGet fields kId) c.id_counter = false →
      (c.call method params incoming).result
        = Except.error (CallError.idMismatch c.id_counter (pyGet fields kId)
            (pyGet fields kError)))
    ∧ (∀ e, (c.call method params incoming).result
          = Except.error (CallError.remoteError e) →
        pyEqInt (pyGet fields kId) c.id_counter = true ∧ pyGet fields kError = some e) := by
  constructor
  · intro hmis
    show callResult c.id_counter (incoming.take 4096) = _
    exact callResult_mismatch _ _ _ hresp hmis
  · intro e he
    have he2 : callResult c.id_counter (incoming.take 4096)
        = Except.error (CallError.remoteError e) := he
    cases hb : pyEqInt (pyGet fields kId) c.id_counter with
    | false =>
      rw [callResult_mismatch _ _ _ hresp hb] at he2
      simp at he2
    | true =>
      refine ⟨rfl, ?_⟩
      rw [callResult_matched _ _ _ hresp hb] at he2
      cases hE : pyGet fields kError with
      | none => rw [hE] at he2; simp at he2
      | some e2 =>
        rw [hE] at he2
        simp at he2
        exact congrArg some he2

theorem call_id_check_precedes_error_check_witness :
    loads (mismErrResp.take 4096) = some (J.obj mismErrFields)
    ∧ pyGet mismErrFields kError = some (J.str ['x'])
    ∧ (JSONClient.init.call [] [] mismErrResp).result
        = Except.error (CallError.idMismatch 0 (some (J.num 5)) (some (J.str ['x']))) :=
  ⟨rfl, rfl,
    (call_id_check_precedes_error_check JSONClient.init [] [] mismErrResp
      mismErrFields rfl).1 rfl⟩

theorem respHead_length : respHead.length = 18 := rfl

theorem respTail_length : respTail.length = 15 := rfl

theorem jp_unterminated_str (f n : Nat) :
    jparse (f + 1) ('"' :: List.replicate n 'a') = none := by
  have h : jparse (f + 1) ('"' :: List.replicate n 'a')
      = (match parseStringBody (List.replicate n 'a') with
         | some (s, r) => some (J.str s, r)
         | none => none) := rfl
  rw [h, psb_replicate]

theorem jp_str_closed (f n : Nat) (r : List Char) :
    jparse (f + 1) ('"' :: (List.replicate n 'a' ++ '"' :: r))
      = some (J.str (List.replicate n 'a'), r) := by
  have h : jparse (f + 1) ('"' :: (List.replicate n 'a' ++ '"' :: r))
      = (match parseStringBody (List.replicate n 'a' ++ '"' :: r) with
         | some (s, r2) => some (J.str s, r2)
         | none => none) := rfl
  rw [h, psb_closed]

theorem oi_result_unterminated (f : Nat) (rest : List Char)
    (h : jparse (f + 1) rest = none) :
    jparseObjItems (f + 2) ('"' :: 'r' :: 'e' :: 's' :: 'u' :: 'l' :: 't' :: '"' :: ':' ::rest) = none := by
  have h2 : jparseObjItems (f + 2) ('"' :: 'r' :: 'e' :: 's' :: 'u' :: 'l' :: 't' :: '"' :: ':' ::rest)
      = (match jparse (f + 1) rest with
         | none => none
         | some (v, r3) =>
           match skipWs r3 with
           | ',' :: r4 =>
             (match jparseObjItems (f + 1) r4 with
              | some (fs, r5) => some ((kResult, v) :: fs, r5)
              | none => none)
           | '}' :: r4 => some ([(kResult, v)], r4)
           | _ => none) := rfl
  rw [h2, h]

theorem oi_id_then (f : Nat) (rest : List Char)
    (h : jparseObjItems (f + 1) rest = none) :
    jparseObjItems (f + 2) ('"' :: 'i' :: 'd' :: '"' :: ':' :: '0' :: ',' ::rest) = none := by
  have h2 : jparseObjItems (f + 2) ('"' :: 'i' :: 'd' :: '"' :: ':' :: '0' :: ',' ::rest)
      = (match jparseObjItems (f + 1) rest with
         | some (fs, r5) => some ((kId, J.num 0) :: fs, r5)
         | none => none) := rfl
  rw [h2, h]

theorem jp_obj_then (f : Nat) (rest : List Char)
    (h : jparseObjItems (f + 1) ('"' :: rest) = none) :
    jparse (f + 2) ('{' :: '"' ::rest) = none := by
  have h2 : jparse (f + 2) ('{' :: '"' ::rest)
      = (match jparseObjItems (f + 1) ('"' :: rest) with
         | some (fs, r2) => some (J.obj fs, r2)
         | none => none) := rfl
  rw [h2, h]

theorem jparse_truncated_big (f n : Nat) :
    jparse (f + 4) (respHead ++ List.replicate n 'a') = none := by
  show jparse (f + 4)
      ('{' :: '"' :: 'i' :: 'd' :: '"' :: ':' :: '0' :: ',' :: '"' :: 'r' :: 'e' :: 's' :: 'u' :: 'l' :: 't' :: '"' :: ':' :: '"' ::
        List.replicate n 'a') = none
  exact jp_obj_then (f + 2) _
    (oi_id_then (f + 1) _ (oi_result_unterminated f _ (jp_unterminated_str f n)))

theorem oi_result_error_value (f n : Nat) :
    jparseObjItems (f + 3)
      ('"' :: 'r' :: 'e' :: 's' :: 'u' :: 'l' :: 't' :: '"' :: ':' :: '"' ::
        (List.replicate n 'a' ++ '"' :: ',' :: '"' :: 'e' :: 'r' :: 'r' :: 'o' :: 'r' :: '"' :: ':' :: 'n' :: 'u' :: 'l' :: 'l' :: '}' ::[]))
      = some ([(kResult, J.str (List.replicate n 'a')), (kError, J.null)], []) := by
  have h2 : jparseObjItems (f + 3)
      ('"' :: 'r' :: 'e' :: 's' :: 'u' :: 'l' :: 't' :: '"' :: ':' :: '"' ::
        (List.replicate n 'a' ++ '"' :: ',' :: '"' :: 'e' :: 'r' :: 'r' :: 'o' :: 'r' :: '"' :: ':' :: 'n' :: 'u' :: 'l' :: 'l' :: '}' ::[]))
      = (match jparse (f + 2)
            ('"' :: (List.replicate n 'a' ++ '"' :: ',' :: '"' :: 'e' :: 'r' :: 'r' :: 'o' :: 'r' :: '"' :: ':' :: 'n' :: 'u' :: 'l' :: 'l' :: '}' ::[])) with
         | none => none
         | some (v, r3) =>
           match skipWs r3 with
           | ',' :: r4 =>
             (match jparseObjItems (f + 2) r4 with
              | some (fs, r5) => some ((kResult, v) :: fs, r5)
              | none => none)
           | '}' :: r4 => some ([(kResult, v)], r4)
           | _ => none) := rfl
  rw [h2, jp_str_closed (f + 1) n (',' :: '"' :: 'e' :: 'r' :: 'r' :: 'o' :: 'r' :: '"' :: ':' :: 'n' :: 'u' :: 'l' :: 'l' :: '}' ::[])]
  rfl

theorem jparse_big_resp (f n : Nat) :
    jparse (f + 5) (respHead ++ (List.replicate n 'a' ++ respTail))
      = some (J.obj [(kId, J.num 0), (kResult, J.str (List.replicate n 'a')),
          (kError, J.null)], []) := by
  show jparse (f + 5)
      ('{' :: '"' :: 'i' :: 'd' :: '"' :: ':' :: '0' :: ',' :: '"' :: 'r' :: 'e' :: 's' :: 'u' :: 'l' :: 't' :: '"' :: ':' :: '"' ::
        (List.replicate n 'a' ++ '"' :: ',' :: '"' :: 'e' :: 'r' :: 'r' :: 'o' :: 'r' :: '"' :: ':' :: 'n' :: 'u' :: 'l' :: 'l' :: '}' ::[]))
      = some (J.obj [(kId, J.num 0), (kResult, J.str (List.replicate n 'a')),
          (kError, J.null)], [])
  have h1 : jparse (f + 5)
      ('{' :: '"' :: 'i' :: 'd' :: '"' :: ':' :: '0' :: ',' :: '"' :: 'r' :: 'e' :: 's' :: 'u' :: 'l' :: 't' :: '"' :: ':' :: '"' ::
        (List.replicate n 'a' ++ '"' :: ',' :: '"' :: 'e' :: 'r' :: 'r' :: 'o' :: 'r' :: '"' :: ':' :: 'n' :: 'u' :: 'l' :: 'l' :: '}' ::[]))
      = (match jparseObjItems (f + 4)
            ('"' :: 'i' :: 'd' :: '"' :: ':' :: '0' :: ',' :: '"' :: 'r' :: 'e' :: 's' :: 'u' :: 'l' :: 't' :: '"' :: ':' :: '"' ::
              (List.replicate n 'a' ++ '"' :: ',' :: '"' :: 'e' :: 'r' :: 'r' :: 'o' :: 'r' :: '"' :: ':' :: 'n' :: 'u' :: 'l' :: 'l' :: '}' ::[])) with
         | some (fs, r2) => some (J.obj fs, r2)
         | none => none) := rfl
  have h2 : jparseObjItems (f + 4)
      ('"' :: 'i' :: 'd' :: '"' :: ':' :: '0' :: ',' :: '"' :: 'r' :: 'e' :: 's' :: 'u' :: 'l' :: 't' :: '"' :: ':' :: '"' ::
        (List.replicate n 'a' ++ '"' :: ',' :: '"' :: 'e' :: 'r' :: 'r' :: 'o' :: 'r' :: '"' :: ':' :: 'n' :: 'u' :: 'l' :: 'l' :: '}' ::[]))
      = (match jparseObjItems (f + 3)
            ('"' :: 'r' :: 'e' :: 's' :: 'u' :: 'l' :: 't' :: '"' :: ':' :: '"' ::
              (List.replicate n 'a' ++ '"' :: ',' :: '"' :: 'e' :: 'r' :: 'r' :: 'o' :: 'r' :: '"' :: ':' :: 'n' :: 'u' :: 'l' :: 'l' :: '}' ::[])) with
         | some (fs, r5) => some ((kId, J.num 0) :: fs, r5)
         | none => none) := rfl
  rw [h1, h2, oi_result_error_value f n]

theorem bigResponse_length : bigResponse.length = 5033 := by
  show (respHead ++ (List.replicate 5000 'a' ++ respTail)).length = 5033
  rw [List.length_append, List.length_append, respHead_length, respTail_length,
    List.length_replicate]

theorem loads_bigResponse : loads bigResponse = some bigResponseValue := by
  have hfuel : bigResponse.length + 1 = 5029 + 5 := by rw [bigResponse_length]
  unfold loads
  rw [hfuel]
  unfold bigResponse
  rw [jparse_big_resp 5029 5000]
  rfl

theorem take_bigResponse : bigResponse.take 4096 = respHead ++ List.replicate 4078 'a' := by
  have ht : respHead.take 4096 = respHead := rfl
  show (respHead ++ (List.replicate 5000 'a' ++ respTail)).take 4096
      = respHead ++ List.replicate 4078 'a'
  rw [List.take_append_eq_append_take, List.take_append_eq_append_take,
    respHead_length, List.take_replicate, List.length_replicate, ht]
  norm_num

theorem loads_truncated : loads (respHead ++ List.replicate 4078 'a') = none := by
  have hfuel : (respHead ++ List.replicate 4078 'a').length + 1 = 4093 + 4 := by
    rw [List.length_append, respHead_length, List.length_replicate]
  unfold loads
  rw [hfuel, jparse_truncated_big 4093 4078]

theorem call_result_eq (c : JSONClient) (m : List Char) (p : List J) (inc : List Char) :
    (c.call m p inc).result = callResult c.id_counter (inc.take 4096) := rfl

/-- C1 is refuted by the code, whose own comment at line 39 concedes the
missing read loop: bigResponse is a well-formed response to request id 0
(its decode is bigResponseValue, whose result is a 5000-character string)
and is longer than 4096 bytes, yet call — which performs a single
socket.recv(4096) and never loops — fails decoding the truncated bytes and
raises a JSON decode error instead of returning the result. -/
theorem call_single_recv_truncates_large_response :
    loads bigResponse = some bigResponseValue
    ∧ 4096 < bigResponse.length
    ∧ (JSONClient.init.call [] [] bigResponse).result
        = Except.error CallError.jsonDecodeError := by
  refine ⟨loads_bigResponse, ?_, ?_⟩
  · rw [bigResponse_length]
    norm_num
  · rw [call_result_eq]
    unfold callResult
    rw [take_bigResponse, loads_truncated]
